import Mathlib

/-!
Shallow embedding of the custom Index Builder wizard
(`src/frontend/src/pages/IndexBuilder.tsx`) of the index-platform
repository.

The component keeps four pieces of React state: the current `step`
(1..4), the `indexConfig` object under construction, the optional
`backtestResults` payload, and the `isRunning` flag.  User events
(typing into the rendered inputs, clicking the rendered buttons) and the
settlement of the one backtest network request are modelled as an
`Event` inductive; `apply` is the transition function, guarded exactly
by which controls the component renders at each step and by each
button's `disabled` expression.  `render` reproduces the element tree
each step produces, restricted to the data-carrying attributes
(values, `required`, `disabled`, chart data, metric card values).
-/

/-- The `filters` sub-object of `indexConfig` (IndexBuilder.tsx lines
12-18): two string lists driven by checkboxes and three raw strings
driven by `<input type="number">` fields. -/
structure Filters where
  sectors : List String
  countries : List String
  min_market_cap : String
  max_market_cap : String
  max_constituents : String
  deriving DecidableEq, Repr

/-- The `indexConfig` state object (IndexBuilder.tsx lines 9-22). -/
structure Config where
  name : String
  description : String
  filters : Filters
  weighting_method : String
  start_date : String
  end_date : String
  deriving DecidableEq, Repr

/-- Initial `indexConfig` value passed to `useState` (lines 9-22). -/
def initConfig : Config :=
  { name := ""
    description := ""
    filters :=
      { sectors := []
        countries := []
        min_market_cap := ""
        max_market_cap := ""
        max_constituents := "" }
    weighting_method := "equal_weight"
    start_date := ""
    end_date := "" }

/-- One point of the returned `index_series` (rendered by the line
chart of `renderStep4`, data key `index_value` over `date`). -/
structure IndexPoint where
  date : String
  index_value : ℚ
  deriving DecidableEq, Repr

/-- The `performance_metrics` object of a backtest response.  Each
field is optional because `renderStep4` guards every access with
optional chaining (`performance_metrics?.total_return` etc.). -/
structure PerformanceMetrics where
  total_return : Option ℚ
  volatility : Option ℚ
  sharpe_ratio : Option ℚ
  max_drawdown : Option ℚ
  deriving DecidableEq, Repr

/-- A backtest response payload (`result.data` stored by the
mutation's `onSuccess`): the series and the optional metrics object. -/
structure BacktestResult where
  index_series : List IndexPoint
  performance_metrics : Option PerformanceMetrics
  deriving DecidableEq, Repr

/-- The keys accepted by `handleFilterChange` (the computed property
`[filterType]` at line 63); every call site passes one of the five
filter keys. -/
inductive FilterKey where
  | sectors
  | countries
  | min_market_cap
  | max_market_cap
  | max_constituents
  deriving DecidableEq, Repr

/-- The type of value stored at each filter key. -/
def FilterKey.valType : FilterKey → Type
  | .sectors => List String
  | .countries => List String
  | .min_market_cap => String
  | .max_market_cap => String
  | .max_constituents => String

/-- Embedding of `handleFilterChange` (lines 58-66): spreads the previous config,
spreads the previous filters, and overwrites the one addressed key. -/
def handleFilterChange (cfg : Config) (k : FilterKey) (v : k.valType) :
    Config :=
  { cfg with
    filters :=
      match k, v with
      | .sectors, v => { cfg.filters with sectors := v }
      | .countries, v => { cfg.filters with countries := v }
      | .min_market_cap, v => { cfg.filters with min_market_cap := v }
      | .max_market_cap, v => { cfg.filters with max_market_cap := v }
      | .max_constituents, v =>
          { cfg.filters with max_constituents := v } }

/-- Unchecking a sector/country checkbox: `filter(s => s !== sector)`
(lines 145 and 167) — removes every occurrence of the item. -/
def removeItem (l : List String) (x : String) : List String :=
  l.filter (fun s => s != x)

/-- Checking a sector/country checkbox: `[...list, item]` (lines 144
and 166) — appends the item at the end. -/
def checkItem (l : List String) (x : String) : List String :=
  l ++ [x]

/-- One click on a checkbox.  The rendered `checked` attribute is
`list.includes(item)`, so the `onChange` handler receives
`e.target.checked = !(item ∈ list)`: a click appends the item when it
is absent and removes it when present (lines 141-147, 163-169). -/
def toggle (l : List String) (x : String) : List String :=
  if x ∈ l then removeItem l x else checkItem l x

/-- The full component state: `step`, `indexConfig`,
`backtestResults`, `isRunning`, plus two ghost fields —
`outstanding` counts in-flight backtest requests and `submitted`
records every configuration object passed to
`backtestMutation.mutateAsync` (line 52), in order. -/
structure UIState where
  step : Nat
  config : Config
  backtestResults : Option BacktestResult
  isRunning : Bool
  outstanding : Nat
  submitted : List Config
  deriving DecidableEq, Repr

/-- Initial component state (lines 8-24): step 1, empty config, no
results, not running. -/
def initState : UIState :=
  { step := 1
    config := initConfig
    backtestResults := none
    isRunning := false
    outstanding := 0
    submitted := [] }

/-- The events the component reacts to.  Input events exist only while
the owning step renders the input; `clickRun` is the Run Backtest
button; `settleSuccess`/`settleError` are the mutation's `onSuccess` /
`onError` (plus the `finally` that clears `isRunning`). -/
inductive Event where
  | setName (v : String)
  | setDescription (v : String)
  | setWeighting (v : String)
  | next1
  | toggleSector (x : String)
  | toggleCountry (x : String)
  | setMinCap (v : String)
  | setMaxCap (v : String)
  | setMaxConstituents (v : String)
  | back2
  | next2
  | setStartDate (v : String)
  | setEndDate (v : String)
  | back3
  | clickRun
  | settleSuccess (r : BacktestResult)
  | settleError
  | createAnother
  deriving DecidableEq, Repr

/-- The transition function.  Each case is guarded by the step at
which the control is rendered and by the button's `disabled`
expression; a disabled or absent control leaves the state unchanged.
`clickRun` mirrors `handleRunBacktest` (lines 49-56): it requires the
button enabled (`!(!start_date || isRunning)`, line 285), sets
`isRunning`, and fires the request with the current config.
`settleSuccess` mirrors `onSuccess` (store `result.data`, go to step
4) plus the `finally`; `settleError` mirrors `onError`
(`console.error` only) plus the `finally`.  `createAnother` is the
step-4 button whose handler is exactly `setStep(1)` (line 385). -/
def apply (s : UIState) (e : Event) : UIState :=
  match e with
  | .setName v =>
      if s.step = 1 then { s with config := { s.config with name := v } }
      else s
  | .setDescription v =>
      if s.step = 1 then
        { s with config := { s.config with description := v } }
      else s
  | .setWeighting v =>
      if s.step = 1 then
        { s with config := { s.config with weighting_method := v } }
      else s
  | .next1 =>
      if s.step = 1 ∧ s.config.name ≠ "" then { s with step := 2 } else s
  | .toggleSector x =>
      if s.step = 2 then
        { s with config := handleFilterChange s.config FilterKey.sectors (toggle s.config.filters.sectors x) }
      else s
  | .toggleCountry x =>
      if s.step = 2 then
        { s with config := handleFilterChange s.config FilterKey.countries (toggle s.config.filters.countries x) }
      else s
  | .setMinCap v =>
      if s.step = 2 then
        { s with config := handleFilterChange s.config FilterKey.min_market_cap v }
      else s
  | .setMaxCap v =>
      if s.step = 2 then
        { s with config := handleFilterChange s.config FilterKey.max_market_cap v }
      else s
  | .setMaxConstituents v =>
      if s.step = 2 then
        { s with config := handleFilterChange s.config FilterKey.max_constituents v }
      else s
  | .back2 => if s.step = 2 then { s with step := 1 } else s
  | .next2 => if s.step = 2 then { s with step := 3 } else s
  | .setStartDate v =>
      if s.step = 3 then
        { s with config := { s.config with start_date := v } }
      else s
  | .setEndDate v =>
      if s.step = 3 then
        { s with config := { s.config with end_date := v } }
      else s
  | .back3 => if s.step = 3 then { s with step := 2 } else s
  | .clickRun =>
      if s.step = 3 ∧ s.config.start_date ≠ "" ∧ s.isRunning = false then
        { s with
          isRunning := true
          outstanding := s.outstanding + 1
          submitted := s.submitted ++ [s.config] }
      else s
  | .settleSuccess r =>
      if 0 < s.outstanding then
        { s with
          backtestResults := some r
          step := 4
          isRunning := false
          outstanding := s.outstanding - 1 }
      else s
  | .settleError =>
      if 0 < s.outstanding then
        { s with
          isRunning := false
          outstanding := s.outstanding - 1 }
      else s
  | .createAnother => if s.step = 4 then { s with step := 1 } else s

/-- Run a sequence of events from a state. -/
def run (s : UIState) (es : List Event) : UIState := es.foldl apply s

/-- Disabled expression of the step-1 "Next: Filters" button,
`disabled={!indexConfig.name}` (line 119): a JS string is falsy
exactly when empty. -/
def step1NextDisabled (name : String) : Bool := name == ""

/-- Disabled expression of the step-3 "Run Backtest" button,
`disabled={!indexConfig.start_date || isRunning}` (line 285). -/
def step3RunDisabled (startDate : String) (running : Bool) : Bool :=
  startDate == "" || running

/-- The step-2 "Next: Time Range" button carries no `disabled`
attribute (lines 222-228). -/
def step2NextDisabled : Bool := false

/-- The elements a render can produce, restricted to the
data-carrying attributes the claims are about. -/
inductive Elem where
  | nameInput (value : String) (required : Bool)
  | descriptionInput (value : String)
  | weightingSelect (value : String)
  | sectorCheckbox (label : String) (checked : Bool)
  | countryCheckbox (label : String) (checked : Bool)
  | numberInput (label : String) (value : String)
  | dateInput (label : String) (value : String) (required : Bool)
  | summaryBox (name : String) (weighting : String)
  | button (label : String) (disabled : Bool)
  | chart (data : List IndexPoint)
  | metricCard (label : String) (value : ℚ)
  | metricCardOpt (label : String) (value : Option ℚ)
  | errorBanner (message : String)
  deriving DecidableEq, Repr

/-- Whether an element is an error banner.  `IndexBuilder.tsx` never
constructs one: the mutation's `onError` only calls `console.error`. -/
def isErrorBanner : Elem → Bool
  | .errorBanner _ => true
  | _ => false

/-- Embedding of `renderStep1` (lines 68-125): name input (required), description,
weighting select, and the gated "Next: Filters" button. -/
def renderStep1 (cfg : Config) : List Elem :=
  [ .nameInput cfg.name true
  , .descriptionInput cfg.description
  , .weightingSelect cfg.weighting_method
  , .button "Next: Filters" (step1NextDisabled cfg.name) ]

/-- Embedding of `renderStep2` (lines 127-231): a checkbox per fetched sector and
country (checked iff the list `includes` it), the three number
inputs, and the ungated Back / "Next: Time Range" buttons. -/
def renderStep2 (cfg : Config) (sectors countries : List String) :
    List Elem :=
  (sectors.map fun sec => Elem.sectorCheckbox sec
    (decide (sec ∈ cfg.filters.sectors))) ++
  (countries.map fun c => Elem.countryCheckbox c
    (decide (c ∈ cfg.filters.countries))) ++
  [ .numberInput "Min Market Cap (USD)" cfg.filters.min_market_cap
  , .numberInput "Max Market Cap (USD)" cfg.filters.max_market_cap
  , .numberInput "Max Constituents" cfg.filters.max_constituents
  , .button "Back" false
  , .button "Next: Time Range" step2NextDisabled ]

/-- Embedding of `renderStep3` (lines 233-301): required start-date input, plain
end-date input, summary box, Back button, and the Run Backtest button
(label swaps to a spinner text while running; `disabled` per
`step3RunDisabled`). -/
def renderStep3 (cfg : Config) (running : Bool) : List Elem :=
  [ .dateInput "Start Date" cfg.start_date true
  , .dateInput "End Date" cfg.end_date false
  , .summaryBox cfg.name cfg.weighting_method
  , .button "Back" false
  , .button (if running then "Running Backtest..." else "Run Backtest")
      (step3RunDisabled cfg.start_date running) ]

/-- The numeric value a percent metric card shows (before
`toFixed(2)` formatting): `(performance_metrics?.field * 100 || 0)`.
In JS a missing field yields `NaN * 100 || 0 = 0`; a present field
`v` yields `v * 100` (for `v = 0` the `|| 0` still shows `0`). -/
def percentMetric (pm : Option PerformanceMetrics)
    (field : PerformanceMetrics → Option ℚ) : ℚ :=
  ((pm.bind field).map (fun v => v * 100)).getD 0

/-- Embedding of `renderStep4` (lines 303-410): nothing when `backtestResults` is
null; otherwise the chart over `index_series`, the four metric cards
(`sharpe_ratio?.toFixed(2) || 'N/A'` shows the raw value when
present), and the three action buttons. -/
def renderStep4 (results : Option BacktestResult) : List Elem :=
  match results with
  | none => []
  | some r =>
      [ .chart r.index_series
      , .metricCard "Total Return"
          (percentMetric r.performance_metrics PerformanceMetrics.total_return)
      , .metricCard "Volatility"
          (percentMetric r.performance_metrics PerformanceMetrics.volatility)
      , .metricCardOpt "Sharpe Ratio"
          (r.performance_metrics.bind PerformanceMetrics.sharpe_ratio)
      , .metricCard "Max Drawdown"
          (percentMetric r.performance_metrics PerformanceMetrics.max_drawdown)
      , .button "Create Another Index" false
      , .button "Save Index" false
      , .button "Export Results" false ]

/-- The component's render (lines 412-457): exactly one step's content
is shown, selected by strict equality on `step`. -/
def render (s : UIState) (sectors countries : List String) : List Elem :=
  if s.step = 1 then renderStep1 s.config
  else if s.step = 2 then renderStep2 s.config sectors countries
  else if s.step = 3 then renderStep3 s.config s.isRunning
  else if s.step = 4 then renderStep4 s.backtestResults
  else []

/-- Guard under which a click of the Run Backtest button actually
fires `handleRunBacktest`: the button is rendered (step 3) and not
disabled. -/
def runEnabled (s : UIState) : Prop :=
  s.step = 3 ∧ s.config.start_date ≠ "" ∧ s.isRunning = false

instance (s : UIState) : Decidable (runEnabled s) := by
  unfold runEnabled; infer_instance

/-- Lexicographic order on character lists by code point. -/
def lexLe : List Char → List Char → Bool
  | [], _ => true
  | _ :: _, [] => false
  | c :: cs, d :: ds =>
      if c.toNat < d.toNat then true
      else if d.toNat < c.toNat then false
      else lexLe cs ds

/-- Spec-side order on date strings, from the spec's
"start_date/end_date (ISO dates, start ≤ end)": equal-length ISO
dates (`YYYY-MM-DD`) compare chronologically exactly as their strings
compare lexicographically. -/
def specDateLe (a b : String) : Bool := lexLe a.data b.data

/-- Decimal value of a digit string, `none` on any non-digit. -/
def digitsVal : List Char → Nat → Option Nat
  | [], acc => some acc
  | c :: cs, acc =>
      if c.isDigit then digitsVal cs (10 * acc + (c.toNat - 48)) else none

/-- Spec-side formalisation of a "positive integer" string, from the
spec's "max constituents: optional positive integer": a non-empty
all-digit string whose value is positive. -/
def specPosIntString (s : String) : Bool :=
  match s.data with
  | [] => false
  | cs =>
      match digitsVal cs 0 with
      | some n => decide (0 < n)
      | none => false

/-- A concrete successful backtest payload used by concrete runs. -/
def samplePayload : BacktestResult :=
  { index_series :=
      [ { date := "2024-01-01", index_value := 100 }
      , { date := "2024-01-02", index_value := 103 } ]
    performance_metrics :=
      some
        { total_return := some 3
          volatility := some 2
          sharpe_ratio := some 1
          max_drawdown := some (-1) } }

/-- Event trace: fill the name, walk to step 3, set only the start
date, and run; the wizard submits with an empty end date. -/
def esSubmitMin : List Event :=
  [.setName "Tech Growth Index", .next1, .next2,
   .setStartDate "2024-01-01", .clickRun]

/-- Event trace whose submission has `end_date` chronologically before
`start_date`: both are genuine ISO dates, and no control rejects
them. -/
def esDatesSwapped : List Event :=
  [.setName "Tech Growth Index", .next1, .next2,
   .setStartDate "2024-01-02", .setEndDate "2024-01-01", .clickRun]

/-- Event trace driving the wizard through a failed backtest: the
mutation's `onError` fires after a config submission. -/
def esErrorPath : List Event :=
  [.setName "Error Test Index", .next1, .toggleSector "Technology",
   .next2, .setStartDate "2024-01-01", .setEndDate "2024-01-31",
   .clickRun, .settleError]

/-- Event trace whose submission carries `max_constituents = "-5"`,
a value the number input accepts and no handler rejects. -/
def esNegativeMax : List Event :=
  [.setName "Tech Growth Index", .next1, .setMaxConstituents "-5",
   .next2, .setStartDate "2024-01-01", .clickRun]

/-- Event trace reaching step 4 through a successful backtest and then
clicking "Create Another Index". -/
def esCreateAnother : List Event :=
  [.setName "Tech Growth Index", .next1, .next2,
   .setStartDate "2024-01-01", .clickRun, .settleSuccess samplePayload,
   .createAnother]

/-- The state at step 4 right after a successful backtest. -/
def stateAtResults : UIState :=
  run initState
    [.setName "Tech Growth Index", .next1, .next2,
     .setStartDate "2024-01-01", .clickRun, .settleSuccess samplePayload]

/-- The state at step 2 after entering a name and advancing. -/
def stateAtStep2 : UIState :=
  run initState [.setName "Tech Growth Index", .next1]

/-- The state at step 3 with a start date entered. -/
def stateAtStep3 : UIState :=
  run initState
    [.setName "Tech Growth Index", .next1, .next2,
     .setStartDate "2024-01-01"]

/-- The state at step 3 while the backtest request is in flight. -/
def stateRunning : UIState :=
  run initState
    [.setName "Tech Growth Index", .next1, .next2,
     .setStartDate "2024-01-01", .clickRun]

/-- Inductive invariant of the wizard: the name is non-empty whenever
steps 2 or 3 are shown (the only gate into step 2 requires it and the
name input exists only at step 1); the number of in-flight requests
matches `isRunning`; every submitted configuration had a non-empty
name and start date at the moment `mutateAsync` was called. -/
def WizardInv (s : UIState) : Prop :=
  ((s.step = 2 ∨ s.step = 3) → s.config.name ≠ "") ∧
  (s.outstanding = if s.isRunning then 1 else 0) ∧
  (∀ c ∈ s.submitted, c.name ≠ "" ∧ c.start_date ≠ "")

lemma wizardInv_init : WizardInv initState := by
  refine ⟨?_, rfl, ?_⟩ <;> simp [initState, initConfig]

lemma wizardInv_preserved (s : UIState) (e : Event) (h : WizardInv s) :
    WizardInv (apply s e) := by
  obtain ⟨st, cfg, res, running, out, sub⟩ := s
  obtain ⟨h1, h2, h3⟩ := h
  cases e <;> cases running <;>
    simp_all [apply, WizardInv, handleFilterChange] <;>
    split_ifs <;> simp_all
  all_goals
    rintro c hc
    rcases hc with hc | rfl
    · exact h3 c hc
    · refine ⟨h1, ?_⟩
      rename_i hguard
      exact hguard.2

lemma wizardInv_run (es : List Event) (s : UIState) (h : WizardInv s) :
    WizardInv (run s es) := by
  induction es generalizing s with
  | nil => exact h
  | cons e es ih => exact ih (apply s e) (wizardInv_preserved s e h)

lemma wizardInv_run_init (es : List Event) : WizardInv (run initState es) :=
  wizardInv_run es initState wizardInv_init

/-- C5: Every `IndexConfiguration` passed to the backtest mutation by
`handleRunBacktest` has a non-empty name: along any sequence of UI
events from the initial wizard state, each submitted configuration's
`name` is a non-empty string (the name is only editable at step 1 and
leaving step 1 forward requires it non-empty). -/
theorem C5_submitted_name_nonempty (es : List Event) (c : Config)
    (hc : c ∈ (run initState es).submitted) : c.name ≠ "" :=
  ((wizardInv_run_init es).2.2 c hc).1

theorem C5_witness :
    ({ initConfig with
        name := "Tech Growth Index"
        start_date := "2024-01-01" } : Config).name ≠ "" :=
  C5_submitted_name_nonempty esSubmitMin _ (by decide)

/-- C4 (amended): every configuration submitted by Run Backtest has a
non-empty `start_date` (the button is disabled while it is empty); the
`end_date` is not validated at all, so it may be empty or precede the
start date. -/
theorem C4_submitted_start_nonempty (es : List Event) (c : Config)
    (hc : c ∈ (run initState es).submitted) : c.start_date ≠ "" :=
  ((wizardInv_run_init es).2.2 c hc).2

theorem C4_counterexample :
    (run initState esDatesSwapped).submitted.length = 1 ∧
    ((run initState esDatesSwapped).submitted.all fun c =>
      specDateLe c.start_date c.end_date) = false := by decide

theorem C4_witness :
    ({ initConfig with
        name := "Tech Growth Index"
        start_date := "2024-01-02"
        end_date := "2024-01-01" } : Config).start_date ≠ "" :=
  C4_submitted_start_nonempty esDatesSwapped _ (by decide)

/-- C7: at most one backtest request is outstanding in any state
reachable by UI events: the outstanding-request count always equals
`isRunning` read as 0/1 (so it never exceeds one), and while
`isRunning` holds a further click of Run Backtest is a no-op because
the button is disabled. -/
theorem C7_single_outstanding (es : List Event) :
    (run initState es).outstanding
        = (if (run initState es).isRunning then 1 else 0) ∧
    (run initState es).outstanding ≤ 1 ∧
    ((run initState es).isRunning = true →
      apply (run initState es) Event.clickRun = run initState es) := by
  have h := (wizardInv_run_init es).2.1
  refine ⟨h, by rw [h]; split <;> omega, ?_⟩
  intro hr
  simp [apply, hr]

theorem C7_witness :
    stateRunning.outstanding = 1 ∧
    apply stateRunning Event.clickRun = stateRunning := by
  have h := C7_single_outstanding
    [.setName "Tech Growth Index", .next1, .next2,
     .setStartDate "2024-01-01", .clickRun]
  exact ⟨by decide, h.2.2 (by decide)⟩

/-- C1: forward navigation is gated exactly by the required fields:
with an empty name the step-1 "Next: Filters" button is disabled and
clicking it changes nothing; with an empty start date the step-3 Run
Backtest button is disabled and clicking it changes nothing; step 2
has only optional fields and its forward button is never disabled, so
it always advances to step 3. -/
theorem C1_required_field_gating (s : UIState) (secs ctys : List String) :
    (s.config.name = "" →
      step1NextDisabled s.config.name = true ∧
      apply s Event.next1 = s ∧
      (s.step = 1 → Elem.button "Next: Filters" true ∈ render s secs ctys)) ∧
    (s.config.start_date = "" →
      step3RunDisabled s.config.start_date s.isRunning = true ∧
      apply s Event.clickRun = s ∧
      (s.step = 3 → s.isRunning = false →
        Elem.button "Run Backtest" true ∈ render s secs ctys)) ∧
    (s.step = 2 →
      step2NextDisabled = false ∧
      (apply s Event.next2).step = 3 ∧
      Elem.button "Next: Time Range" false ∈ render s secs ctys) := by
  refine ⟨fun h => ⟨?_, ?_, fun h1 => ?_⟩,
          fun h => ⟨?_, ?_, fun h3 hr => ?_⟩,
          fun h2 => ⟨rfl, ?_, ?_⟩⟩
  · simp [step1NextDisabled, h]
  · simp [apply, h]
  · simp [render, renderStep1, step1NextDisabled, h, h1]
  · simp [step3RunDisabled, h]
  · simp [apply, h]
  · simp [render, renderStep3, step3RunDisabled, h, h3, hr]
  · simp [apply, h2]
  · simp [render, renderStep2, step2NextDisabled, h2]

theorem C1_witness :
    (apply initState Event.next1 = initState) ∧
    (apply (run initState [.setName "Tech Growth Index", .next1, .next2])
        Event.clickRun
      = run initState [.setName "Tech Growth Index", .next1, .next2]) ∧
    (apply stateAtStep2 Event.next2).step = 3 :=
  ⟨((C1_required_field_gating initState [] []).1 rfl).2.1,
   ((C1_required_field_gating
      (run initState [.setName "Tech Growth Index", .next1, .next2])
      [] []).2.1 (by decide)).2.1,
   ((C1_required_field_gating stateAtStep2 [] []).2.2 (by decide)).2.1⟩

/-- C9: `handleFilterChange(filterType, value)` updates only the
addressed filter key: `name`, `description`, `weighting_method`,
`start_date`, `end_date`, and every other filter key are unchanged. -/
theorem C9_filter_frame (cfg : Config) (k : FilterKey) (v : k.valType) :
    (handleFilterChange cfg k v).name = cfg.name ∧
    (handleFilterChange cfg k v).description = cfg.description ∧
    (handleFilterChange cfg k v).weighting_method
        = cfg.weighting_method ∧
    (handleFilterChange cfg k v).start_date = cfg.start_date ∧
    (handleFilterChange cfg k v).end_date = cfg.end_date ∧
    (k ≠ FilterKey.sectors →
      (handleFilterChange cfg k v).filters.sectors
        = cfg.filters.sectors) ∧
    (k ≠ FilterKey.countries →
      (handleFilterChange cfg k v).filters.countries
        = cfg.filters.countries) ∧
    (k ≠ FilterKey.min_market_cap →
      (handleFilterChange cfg k v).filters.min_market_cap
        = cfg.filters.min_market_cap) ∧
    (k ≠ FilterKey.max_market_cap →
      (handleFilterChange cfg k v).filters.max_market_cap
        = cfg.filters.max_market_cap) ∧
    (k ≠ FilterKey.max_constituents →
      (handleFilterChange cfg k v).filters.max_constituents
        = cfg.filters.max_constituents) := by
  cases k <;> simp [handleFilterChange]

theorem C9_witness :
    (handleFilterChange initConfig FilterKey.min_market_cap "5").name
        = initConfig.name ∧
    (handleFilterChange initConfig
        FilterKey.min_market_cap "5").filters.sectors
        = initConfig.filters.sectors ∧
    (handleFilterChange initConfig
        FilterKey.min_market_cap "5").filters.max_market_cap
        = initConfig.filters.max_market_cap :=
  ⟨(C9_filter_frame initConfig FilterKey.min_market_cap "5").1,
   (C9_filter_frame initConfig FilterKey.min_market_cap "5").2.2.2.2.2.1
     (by decide),
   (C9_filter_frame initConfig
       FilterKey.min_market_cap "5").2.2.2.2.2.2.2.2.1 (by decide)⟩

/-- C10: the checkbox toggles are inverse operations on the filter
lists: unchecking removes every occurrence of the item, checking
appends it, so for an item not already present a check followed by an
uncheck restores the original list, and a duplicate-free list stays
duplicate-free under any sequence of toggle clicks. -/
theorem C10_toggle_algebra :
    (∀ (l : List String) (x : String), x ∉ removeItem l x) ∧
    (∀ (l : List String) (x : String), x ∉ l →
      removeItem (checkItem l x) x = l) ∧
    (∀ (l : List String) (x : String), l.Nodup → (toggle l x).Nodup) ∧
    (∀ (l : List String) (xs : List String), l.Nodup →
      (xs.foldl toggle l).Nodup) := by
  have hrem : ∀ (l : List String) (x : String), x ∉ removeItem l x := by
    intro l x
    simp [removeItem, List.mem_filter]
  have hinv : ∀ (l : List String) (x : String), x ∉ l →
      removeItem (checkItem l x) x = l := by
    intro l x hx
    have hself : l.filter (fun s => s != x) = l := by
      rw [List.filter_eq_self]
      intro a ha
      simp only [bne_iff_ne, ne_eq, decide_eq_true_eq]
      rintro rfl
      exact hx ha
    simp [removeItem, checkItem, List.filter_append, hself]
  have htog : ∀ (l : List String) (x : String), l.Nodup →
      (toggle l x).Nodup := by
    intro l x h
    unfold toggle
    split_ifs with hmem
    · exact h.filter _
    · exact List.nodup_append.mpr
        ⟨h, List.nodup_singleton x, by
          simp only [List.disjoint_singleton]
          exact hmem⟩
  refine ⟨hrem, hinv, htog, ?_⟩
  intro l xs
  induction xs generalizing l with
  | nil => exact fun h => h
  | cons x xs ih =>
      intro h
      exact ih (toggle l x) (htog l x h)

theorem C10_witness :
    removeItem (checkItem ["Energy"] "Technology") "Technology"
        = ["Energy"] ∧
    (toggle ["Energy"] "Technology").Nodup ∧
    ((["Technology", "Technology", "Energy"] : List String).foldl
        toggle ["Energy"]).Nodup :=
  ⟨C10_toggle_algebra.2.1 ["Energy"] "Technology" (by decide),
   C10_toggle_algebra.2.2.1 ["Energy"] "Technology" (by decide),
   C10_toggle_algebra.2.2.2 ["Energy"]
     ["Technology", "Technology", "Energy"] (by decide)⟩

theorem C6_counterexample :
    (run initState esCreateAnother).step = 1 ∧
    (run initState esCreateAnother).config ≠ initConfig ∧
    (run initState esCreateAnother).config.name = "Tech Growth Index" ∧
    (run initState esCreateAnother).backtestResults
        = some samplePayload := by decide

/-- C6 (amended): the "Create Another Index" button at step 4 returns
the wizard to step 1 and changes nothing else: its click handler is
exactly `setStep(1)`, so the `IndexConfiguration` keeps its submitted
values and the held `BacktestResult` remains in state. -/
theorem C6_create_another_only_resets_step (s : UIState)
    (h : s.step = 4) :
    apply s Event.createAnother = { s with step := 1 } := by
  simp [apply, h]

theorem C6_witness :
    apply stateAtResults Event.createAnother
      = { stateAtResults with step := 1 } :=
  C6_create_another_only_resets_step stateAtResults (by decide)

theorem C8_counterexample :
    (run initState esNegativeMax).submitted.length = 1 ∧
    ((run initState esNegativeMax).submitted.all fun c =>
        c.filters.max_constituents == ""
          || specPosIntString c.filters.max_constituents) = false := by
  decide

/-- C8 (amended): the market-cap and max-constituents filter fields
are raw strings passed through with no validation: any value the
number input yields — including empty, zero, or negative — is stored
verbatim by `handleFilterChange` and submitted verbatim by
`handleRunBacktest`, which passes the configuration object unchanged
to the mutation. -/
theorem C8_raw_string_passthrough (s : UIState) (v : String)
    (h2 : s.step = 2) :
    (apply s (Event.setMinCap v)).config.filters.min_market_cap = v ∧
    (apply s (Event.setMaxCap v)).config.filters.max_market_cap = v ∧
    (apply s
        (Event.setMaxConstituents v)).config.filters.max_constituents
      = v ∧
    (∀ t : UIState, runEnabled t →
      (apply t Event.clickRun).submitted = t.submitted ++ [t.config]) := by
  refine ⟨?_, ?_, ?_, ?_⟩
  · simp [apply, h2, handleFilterChange]
  · simp [apply, h2, handleFilterChange]
  · simp [apply, h2, handleFilterChange]
  · intro t ht
    obtain ⟨h3, hsd, hr⟩ := ht
    simp [apply, h3, hsd, hr]

theorem C8_witness :
    (apply stateAtStep2
        (Event.setMinCap "-3")).config.filters.min_market_cap = "-3" ∧
    (apply stateAtStep3 Event.clickRun).submitted
      = stateAtStep3.submitted ++ [stateAtStep3.config] :=
  ⟨(C8_raw_string_passthrough stateAtStep2 "-3" (by decide)).1,
   (C8_raw_string_passthrough stateAtStep2 "-3" (by decide)).2.2.2
     stateAtStep3 (by decide)⟩

/-- C2 (code discrepancy): after a failed backtest submission the
wizard does stay on step 3 with no stored result and the request
settled, but no error banner is rendered — `render` produces no
`errorBanner` element in any state whatsoever, because the mutation's
`onError` handler only logs to the console and no step's JSX contains
an error element or a dedicated retry control. -/
theorem C2_no_error_banner_exists :
    (run initState esErrorPath).step = 3 ∧
    (run initState esErrorPath).backtestResults = none ∧
    (run initState esErrorPath).isRunning = false ∧
    (∀ (s : UIState) (secs ctys : List String),
      ((render s secs ctys).all fun e => !isErrorBanner e) = true) := by
  refine ⟨by decide, by decide, by decide, ?_⟩
  intro s secs ctys
  unfold render
  split_ifs
  · simp [renderStep1, isErrorBanner]
  · simp [renderStep2, isErrorBanner, step2NextDisabled,
      List.all_append, List.all_map, Function.comp]
  · simp [renderStep3, isErrorBanner]
  · cases hres : s.backtestResults <;> simp [renderStep4, isErrorBanner]
  · simp

/-- C3: a successful backtest response moves the wizard to step 4 and
renders exactly the returned payload: the stored result is the
response itself, the chart's data is its `index_series`, and the four
metric cards display its `performance_metrics` fields (the percent
cards scaled by 100 for display, the Sharpe card verbatim). -/
theorem C3_success_renders_payload (s : UIState) (r : BacktestResult)
    (h : 0 < s.outstanding) (secs ctys : List String) :
    (apply s (Event.settleSuccess r)).step = 4 ∧
    (apply s (Event.settleSuccess r)).backtestResults = some r ∧
    Elem.chart r.index_series
        ∈ render (apply s (Event.settleSuccess r)) secs ctys ∧
    (∀ m tr vol sr md,
      r.performance_metrics = some m →
      m.total_return = some tr →
      m.volatility = some vol →
      m.sharpe_ratio = some sr →
      m.max_drawdown = some md →
      Elem.metricCard "Total Return" (tr * 100)
          ∈ render (apply s (Event.settleSuccess r)) secs ctys ∧
      Elem.metricCard "Volatility" (vol * 100)
          ∈ render (apply s (Event.settleSuccess r)) secs ctys ∧
      Elem.metricCardOpt "Sharpe Ratio" (some sr)
          ∈ render (apply s (Event.settleSuccess r)) secs ctys ∧
      Elem.metricCard "Max Drawdown" (md * 100)
          ∈ render (apply s (Event.settleSuccess r)) secs ctys) := by
  have happ : apply s (Event.settleSuccess r)
      = { s with
          backtestResults := some r
          step := 4
          isRunning := false
          outstanding := s.outstanding - 1 } := by
    simp [apply, h]
  rw [happ]
  refine ⟨rfl, rfl, ?_, ?_⟩
  · simp [render, renderStep4]
  · intro m tr vol sr md hm htr hvol hsr hmd
    refine ⟨?_, ?_, ?_, ?_⟩ <;>
      simp [render, renderStep4, percentMetric, hm, htr, hvol, hsr, hmd]

theorem C3_witness :
    (apply stateRunning (Event.settleSuccess samplePayload)).step = 4 ∧
    Elem.chart samplePayload.index_series
        ∈ render (apply stateRunning (Event.settleSuccess samplePayload))
            [] [] := by
  have h := C3_success_renders_payload stateRunning samplePayload
    (by decide) [] []
  exact ⟨h.1, h.2.2.1⟩
